import Mathlib

/-!
Shallow embedding of the client-side correlation core of msgpack-rpc-python
(`msgpackrpc/session.py` and `msgpackrpc/client.py`).

The `Session` owns two registries keyed by message id (a future-keyed
`request_table` and a callback-keyed `request_callbacks`), an id generator
(`_NoSyncIDGenerator`), and a transport handle.  Python objects popped from a
dict keep existing on the heap, so the embedding separates the registries
(lists of message ids, insertion-ordered with unique keys like a Python dict)
from an object heap `futures : List (Nat × Future)` that records every
Deferred Result ever registered, keyed by the message id it was registered
under.  Callback invocations are recorded in an append-only log `cbLog`
(the callback functions themselves are opaque).  The event loop start/stop
calls carry no state relevant to the registries and are not modelled.
-/

namespace MsgpackRpc

/-- Error values a Deferred Result can be failed with: a server-reported
error object (`set_error(error)` in `on_response`), the synthetic
`"Request timed out"` string used by the timeout sweep, and the connection
failure `reason` broadcast by `on_connect_failed`. -/
inductive ErrVal where
  | remote (e : Nat)
  | timedOut
  | connFail (reason : Nat)
deriving DecidableEq

/-- Modelled from the spec: the Deferred Result (`Future`) is an external
collaborator (its module is not part of the shown source).  Per the spec it is
a single-assignment slot: it transitions from pending to exactly one of
resolved or failed, and ignores any later assignment attempt. -/
inductive FutureState where
  | pending
  | resolved (v : Nat)
  | failed (e : ErrVal)
deriving DecidableEq

/-- Modelled from the spec: a Deferred Result.  `state` is the
single-assignment slot; `deliveries` counts how many `set_result`/`set_error`
calls were made on it (so "delivered exactly once" is `deliveries = 1`);
`expired` is what its `step_timeout()` deadline probe reports (the deadline
bookkeeping itself is internal to the collaborator, so it is a fixed
observable here). -/
structure Future where
  state : FutureState
  deliveries : Nat
  expired : Bool
deriving DecidableEq

/-- A freshly created Deferred Result: pending, nothing delivered,
deadline not yet elapsed (`Future(self._loop, self._timeout)`). -/
def Future.fresh : Future :=
  { state := FutureState.pending, deliveries := 0, expired := false }

/-- Modelled from the spec: `future.set_error(e)` — counts the delivery and,
being single-assignment, only moves the state when still pending. -/
def Future.setError (f : Future) (e : ErrVal) : Future :=
  { f with deliveries := f.deliveries + 1,
           state := match f.state with
             | FutureState.pending => FutureState.failed e
             | st => st }

/-- Modelled from the spec: `future.set_result(v)` — counts the delivery and,
being single-assignment, only moves the state when still pending. -/
def Future.setResult (f : Future) (v : Nat) : Future :=
  { f with deliveries := f.deliveries + 1,
           state := match f.state with
             | FutureState.pending => FutureState.resolved v
             | st => st }

/-- Look a Deferred Result up in the object heap by the message id it was
registered under (first matching entry, as a dict has unique keys). -/
def lookupF : List (Nat × Future) → Nat → Option Future
  | [], _ => none
  | (k, f) :: t, id => if k = id then some f else lookupF t id

/-- Apply `set_error e` to the heap entry registered under `id`. -/
def setFutureErr : List (Nat × Future) → Nat → ErrVal → List (Nat × Future)
  | [], _, _ => []
  | (k, f) :: t, id, e =>
      if k = id then (k, f.setError e) :: setFutureErr t id e
      else (k, f) :: setFutureErr t id e

/-- Apply `set_result v` to the heap entry registered under `id`. -/
def setFutureRes : List (Nat × Future) → Nat → Nat → List (Nat × Future)
  | [], _, _ => []
  | (k, f) :: t, id, v =>
      if k = id then (k, f.setResult v) :: setFutureRes t id v
      else (k, f) :: setFutureRes t id v

/-- Python dict key insertion on a registry: keys stay unique, a new key is
appended in insertion order. -/
def dictInsert (l : List Nat) (k : Nat) : List Nat :=
  if k ∈ l then l else l ++ [k]

/-- Dict assignment `heap[k] = f`: overwrite an existing key, else append. -/
def heapInsert (h : List (Nat × Future)) (k : Nat) (f : Future) :
    List (Nat × Future) :=
  if (lookupF h k).isSome then
    h.map (fun p => if p.1 = k then (k, f) else p)
  else h ++ [(k, f)]

/-- One advance of `_NoSyncIDGenerator`'s counter after a yield:
`counter += 1; if counter > (1 << 30): counter = 0`. -/
def genStep (c : Nat) : Nat :=
  if c + 1 > 1 <<< 30 then 0 else c + 1

/-- The generator's counter before the `n`-th `next(...)` call (0-indexed);
since the generator yields the counter and then advances, this is also the
`n`-th id it produces. -/
def genState : Nat → Nat
  | 0 => 0
  | n + 1 => genStep (genState n)

/-- The state of a `Session`.  `counter` is the id generator's state,
`request_table` and `request_callbacks` are the key sets of the two
registries, `futures` is the object heap of every Deferred Result ever
registered, `cbLog` records each callback invocation as
`(msgid, argument)` where the argument is `none` for the error branch's
`callback(None)`, `transport` says whether `self._transport` is set, and
`transportCloses` counts how many times `self._transport.close()` ran. -/
structure Session where
  counter : Nat
  request_table : List Nat
  request_callbacks : List Nat
  futures : List (Nat × Future)
  cbLog : List (Nat × Option Nat)
  transport : Bool
  transportCloses : Nat
deriving DecidableEq

/-- A Session as built by `Session.__init__`: fresh generator, empty
registries, transport created. -/
def freshSession : Session :=
  { counter := 0, request_table := [], request_callbacks := [],
    futures := [], cbLog := [], transport := true, transportCloses := 0 }

/-- `Session.send_request`: draw a message id from the generator, create a
fresh Deferred Result, register it in the future-keyed registry, and return
the id (standing for the returned future, which the heap stores under that
id).  Sending on the transport carries no registry-relevant state. -/
def send_request (s : Session) : Nat × Session :=
  let msgid := s.counter
  (msgid,
   { s with counter := genStep s.counter,
            request_table := dictInsert s.request_table msgid,
            futures := heapInsert s.futures msgid Future.fresh })

/-- `Session.call_with_callback`: draw a message id and register the
(opaque) callback in the callback-keyed registry. -/
def call_with_callback (s : Session) : Nat × Session :=
  let msgid := s.counter
  (msgid,
   { s with counter := genStep s.counter,
            request_callbacks := dictInsert s.request_callbacks msgid })

/-- `Session.close`: `if self._transport: self._transport.close()`, drop the
transport reference, and reset both registries to empty dicts. -/
def close (s : Session) : Session :=
  { s with transport := false,
           transportCloses :=
             s.transportCloses + (if s.transport then 1 else 0),
           request_table := [],
           request_callbacks := [] }

/-- Fail the Deferred Result registered under `id` with `e`; when `er` is
true also pop `id` from the future-keyed registry first (the
`self._request_table.pop(timeout); future.set_error(...)` step of the sweep).
With `er` false it is the `future.set_error(reason)` step of
`on_connect_failed`, which iterates without popping. -/
def failOne (e : ErrVal) (er : Bool) (s : Session) (id : Nat) : Session :=
  { s with request_table :=
             if er then s.request_table.erase id else s.request_table,
           futures := setFutureErr s.futures id e }

/-- Fail every id in `L` in order with `e` (popping each from the
future-keyed registry when `er` is true). -/
def failAll (e : ErrVal) (er : Bool) (L : List Nat) (s : Session) : Session :=
  L.foldl (failOne e er) s

/-- `Session.on_connect_failed(reason)`: fail every future currently in the
future-keyed registry with the reason, reset the future-keyed registry, then
`self.close()` (the loop stop is not modelled). -/
def on_connect_failed (s : Session) (reason : Nat) : Session :=
  let s1 := failAll (ErrVal.connFail reason) false s.request_table s
  close { s1 with request_table := [] }

/-- `Session.on_response(msgid, error, result)`: discard silently when the
id is in neither registry; when future-keyed, pop the entry and fail the
future with the error if present, else resolve it with the result; else
(callback-keyed) pop the callback and invoke it with `None` if an error is
present, else with the result (the loop stop is not modelled). -/
def on_response (s : Session) (msgid : Nat) (error : Option Nat)
    (result : Nat) : Session :=
  if msgid ∉ s.request_table ∧ msgid ∉ s.request_callbacks then s
  else if msgid ∈ s.request_table then
    { s with request_table := s.request_table.erase msgid,
             futures := match error with
               | some e => setFutureErr s.futures msgid (ErrVal.remote e)
               | none => setFutureRes s.futures msgid result }
  else
    { s with request_callbacks := s.request_callbacks.erase msgid,
             cbLog := s.cbLog ++
               [(msgid, match error with
                  | some _ => none
                  | none => some result)] }

/-- A Python runtime error; `Session.on_timeout` raises `NameError`. -/
inductive PyErr where
  | nameError (n : String)
deriving DecidableEq

/-- The names bound in the scope of `Session.on_timeout(self, msgid)` when
its body runs: its parameters.  No local, module-level or builtin binding of
the name `timeout` exists (`self._timeout` is an attribute, not a name). -/
def on_timeout_scope : List String := ["self", "msgid"]

/-- `Session.on_timeout(msgid)`: its first statement is
`future = self._request_table.pop(timeout)`, which evaluates the bare name
`timeout`.  Python name resolution looks `timeout` up in the enclosing
scopes; it is bound in none of them, so the statement raises `NameError`
before any registry access, whatever `msgid` is. -/
def on_timeout (s : Session) (msgid : Nat) : Except PyErr Session :=
  if "timeout" ∈ on_timeout_scope then
    Except.ok { s with request_table := s.request_table.erase msgid,
                       futures := setFutureErr s.futures msgid
                         ErrVal.timedOut }
  else
    Except.error (PyErr.nameError "timeout")

/-- The ids collected by the sweep's scan: the future-keyed entries whose
Deferred Result reports its deadline elapsed (`future.step_timeout()`). -/
def expiredIds (s : Session) : List Nat :=
  s.request_table.filter (fun id =>
    match lookupF s.futures id with
    | some f => f.expired
    | none => false)

/-- `Session.step_timeout`: collect the expired future-keyed ids; if none,
return; else pop each collected id from the future-keyed registry and fail
its Deferred Result with the timeout error (the loop stop/start bracketing
the mutation is not modelled). -/
def step_timeout (s : Session) : Session :=
  let timeouts := expiredIds s
  if timeouts.length = 0 then s
  else failAll ErrVal.timedOut true timeouts s

/-- The session after `n` `send_request` calls on a fresh session with no
intervening replies. -/
def iterCalls : Nat → Session
  | 0 => freshSession
  | n + 1 => (send_request (iterCalls n)).2

/-- The message id `send_request` assigns to the `n`-th call (0-indexed) in
that sequence. -/
def assignedId (n : Nat) : Nat :=
  (send_request (iterCalls n)).1

/-- A pending Deferred Result whose deadline probe reports expiry. -/
def expiredFuture : Future :=
  { state := FutureState.pending, deliveries := 0, expired := true }

/-- A session with one expired future-keyed call outstanding under id 0. -/
def sessionOneExpired : Session :=
  { counter := 1, request_table := [0], request_callbacks := [],
    futures := [(0, expiredFuture)], cbLog := [], transport := true,
    transportCloses := 0 }

/-- A session with one pending (not yet expired) future-keyed call under
id 0. -/
def sessionOnePending : Session :=
  { counter := 1, request_table := [0], request_callbacks := [],
    futures := [(0, Future.fresh)], cbLog := [], transport := true,
    transportCloses := 0 }

/-- A session with one callback-keyed registration under id 7 and nothing
future-keyed. -/
def sessionOneCallback : Session :=
  { counter := 8, request_table := [], request_callbacks := [7],
    futures := [], cbLog := [], transport := true, transportCloses := 0 }

theorem shift30_eq : (1 <<< 30 : Nat) = 1073741824 := by decide

theorem genState_mod (n : Nat) : genState n = n % 1073741825 := by
  induction n with
  | zero => simp [genState]
  | succ n ih =>
      have hlt : n % 1073741825 < 1073741825 := Nat.mod_lt _ (by norm_num)
      rw [genState, ih, genStep, shift30_eq]
      by_cases hc : n % 1073741825 + 1 > 1073741824
      · rw [if_pos hc]; omega
      · rw [if_neg hc]; omega

theorem iterCalls_counter (n : Nat) : (iterCalls n).counter = genState n := by
  induction n with
  | zero => rfl
  | succ n ih => simp [iterCalls, send_request, genState, ih]

theorem assignedId_eq (n : Nat) : assignedId n = genState n := by
  rw [assignedId, send_request]
  exact iterCalls_counter n

theorem lookupF_setErr_self {h : List (Nat × Future)} {id : Nat} {f : Future}
    (e : ErrVal) (hf : lookupF h id = some f) :
    lookupF (setFutureErr h id e) id = some (f.setError e) := by
  induction h with
  | nil => simp [lookupF] at hf
  | cons a t ih =>
      obtain ⟨k, g⟩ := a
      by_cases hk : k = id
      · subst hk
        simp [lookupF] at hf
        subst hf
        simp [setFutureErr, lookupF]
      · simp only [lookupF, if_neg hk] at hf
        simp [setFutureErr, lookupF, hk, ih hf]

theorem lookupF_setErr_ne {h : List (Nat × Future)} {k id : Nat}
    (e : ErrVal) (hne : k ≠ id) :
    lookupF (setFutureErr h id e) k = lookupF h k := by
  induction h with
  | nil => rfl
  | cons a t ih =>
      obtain ⟨k', g⟩ := a
      by_cases hk : k' = id
      · subst hk
        simp [setFutureErr, lookupF, Ne.symm hne, ih]
      · by_cases hk2 : k' = k
        · subst hk2
          simp [setFutureErr, lookupF, hk]
        · simp [setFutureErr, lookupF, hk, hk2, ih]

theorem lookupF_setRes_self {h : List (Nat × Future)} {id : Nat} {f : Future}
    (v : Nat) (hf : lookupF h id = some f) :
    lookupF (setFutureRes h id v) id = some (f.setResult v) := by
  induction h with
  | nil => simp [lookupF] at hf
  | cons a t ih =>
      obtain ⟨k, g⟩ := a
      by_cases hk : k = id
      · subst hk
        simp [lookupF] at hf
        subst hf
        simp [setFutureRes, lookupF]
      · simp only [lookupF, if_neg hk] at hf
        simp [setFutureRes, lookupF, hk, ih hf]

theorem failAll_cons (e : ErrVal) (er : Bool) (a : Nat) (t : List Nat)
    (s : Session) :
    failAll e er (a :: t) s = failAll e er t (failOne e er s a) := by
  simp [failAll]

theorem failAll_frame (e : ErrVal) (er : Bool) (L : List Nat) (s : Session) :
    (failAll e er L s).request_callbacks = s.request_callbacks ∧
    (failAll e er L s).cbLog = s.cbLog ∧
    (failAll e er L s).counter = s.counter ∧
    (failAll e er L s).transport = s.transport ∧
    (failAll e er L s).transportCloses = s.transportCloses := by
  induction L generalizing s with
  | nil => exact ⟨rfl, rfl, rfl, rfl, rfl⟩
  | cons a t ih => rw [failAll_cons]; exact ih (failOne e er s a)

theorem failAll_lookup_notmem (e : ErrVal) (er : Bool) {L : List Nat}
    {id : Nat} (s : Session) (hid : id ∉ L) :
    lookupF (failAll e er L s).futures id = lookupF s.futures id := by
  induction L generalizing s with
  | nil => rfl
  | cons a t ih =>
      rw [failAll_cons]
      have hne : id ≠ a := fun h => hid (h ▸ List.mem_cons_self a t)
      have hidt : id ∉ t := fun h => hid (List.mem_cons_of_mem a h)
      rw [ih (failOne e er s a) hidt]
      exact lookupF_setErr_ne e hne

theorem failAll_table_notmem (e : ErrVal) (er : Bool) {L : List Nat}
    {id : Nat} {s : Session} (hid : id ∉ s.request_table) :
    id ∉ (failAll e er L s).request_table := by
  induction L generalizing s with
  | nil => exact hid
  | cons a t ih =>
      rw [failAll_cons]
      refine ih ?_
      cases er with
      | false => exact hid
      | true =>
          simp only [failOne, if_pos]
          exact fun h => hid (List.mem_of_mem_erase h)

theorem failAll_table_nodup (e : ErrVal) (er : Bool) {L : List Nat}
    {s : Session} (hnd : s.request_table.Nodup) :
    (failAll e er L s).request_table.Nodup := by
  induction L generalizing s with
  | nil => exact hnd
  | cons a t ih =>
      rw [failAll_cons]
      refine ih ?_
      cases er with
      | false => exact hnd
      | true => exact hnd.erase a

theorem failAll_lookup_mem (e : ErrVal) (er : Bool) {L : List Nat}
    {id : Nat} {f : Future} {s : Session} (hL : L.Nodup) (hm : id ∈ L)
    (hf : lookupF s.futures id = some f) :
    lookupF (failAll e er L s).futures id = some (f.setError e) := by
  induction L generalizing s with
  | nil => cases hm
  | cons a t ih =>
      rw [failAll_cons]
      rcases List.mem_cons.mp hm with hme | hme
      · subst hme
        have hat : id ∉ t := (List.nodup_cons.mp hL).1
        rw [failAll_lookup_notmem e er (failOne e er s id) hat]
        exact lookupF_setErr_self e hf
      · have hne : id ≠ a := by
          rintro rfl
          exact (List.nodup_cons.mp hL).1 hme
        refine ih (List.nodup_cons.mp hL).2 hme ?_
        show lookupF (setFutureErr s.futures a e) id = some f
        rw [lookupF_setErr_ne e hne]
        exact hf

theorem failAll_erase_mem (e : ErrVal) {L : List Nat} {id : Nat}
    {s : Session} (hm : id ∈ L) (hnd : s.request_table.Nodup) :
    id ∉ (failAll e true L s).request_table := by
  induction L generalizing s with
  | nil => cases hm
  | cons a t ih =>
      rw [failAll_cons]
      rcases List.mem_cons.mp hm with hme | hme
      · subst hme
        refine failAll_table_notmem e true ?_
        show id ∉ s.request_table.erase id
        exact hnd.not_mem_erase
      · refine ih hme ?_
        show (if true then s.request_table.erase a else s.request_table).Nodup
        simpa using hnd.erase a

theorem on_response_not_found {s : Session} {id : Nat} {error : Option Nat}
    {result : Nat} (h1 : id ∉ s.request_table)
    (h2 : id ∉ s.request_callbacks) :
    on_response s id error result = s := by
  simp [on_response, h1, h2]

theorem step_timeout_noop {s : Session} (h : expiredIds s = []) :
    step_timeout s = s := by
  simp [step_timeout, h]

theorem step_timeout_of_ne {s : Session} (h : expiredIds s ≠ []) :
    step_timeout s = failAll ErrVal.timedOut true (expiredIds s) s := by
  simp [step_timeout, h]

theorem step_timeout_callbacks (s : Session) :
    (step_timeout s).request_callbacks = s.request_callbacks := by
  by_cases h : expiredIds s = []
  · rw [step_timeout_noop h]
  · rw [step_timeout_of_ne h]
    exact (failAll_frame _ _ _ _).1

theorem step_timeout_cbLog (s : Session) :
    (step_timeout s).cbLog = s.cbLog := by
  by_cases h : expiredIds s = []
  · rw [step_timeout_noop h]
  · rw [step_timeout_of_ne h]
    exact (failAll_frame _ _ _ _).2.1

theorem mem_expiredIds {s : Session} {id : Nat} {f : Future}
    (hm : id ∈ s.request_table) (hf : lookupF s.futures id = some f)
    (hx : f.expired = true) : id ∈ expiredIds s := by
  refine List.mem_filter.mpr ⟨hm, ?_⟩
  simp [hf, hx]

theorem expiredIds_nodup {s : Session} (hnd : s.request_table.Nodup) :
    (expiredIds s).Nodup :=
  hnd.filter _

theorem step_timeout_expired {s : Session} {id : Nat} {f : Future}
    (hnd : s.request_table.Nodup) (hm : id ∈ s.request_table)
    (hf : lookupF s.futures id = some f) (hx : f.expired = true) :
    id ∉ (step_timeout s).request_table ∧
    lookupF (step_timeout s).futures id = some (f.setError ErrVal.timedOut) := by
  have hmem := mem_expiredIds hm hf hx
  have hne : expiredIds s ≠ [] := by
    intro h
    rw [h] at hmem
    cases hmem
  rw [step_timeout_of_ne hne]
  exact ⟨failAll_erase_mem _ hmem hnd,
         failAll_lookup_mem _ _ (expiredIds_nodup hnd) hmem hf⟩

/-- C1: for every call registered in the future-keyed registry whose timeout
elapses before any response arrives, the timeout sweep removes its id from
the registry and fails its Deferred Result with a timeout error exactly once
(`deliveries` goes from 0 to 1), and a response arriving afterwards for that
id finds the id in neither registry and is silently discarded by
`on_response`, so the call is never delivered a result or error twice. -/
theorem c1_timeout_once_late_response_discarded (s : Session) (id : Nat)
    (f : Future) (hnd : s.request_table.Nodup) (hm : id ∈ s.request_table)
    (hcb : id ∉ s.request_callbacks) (hf : lookupF s.futures id = some f)
    (hx : f.expired = true) (hp : f.state = FutureState.pending)
    (hd : f.deliveries = 0) :
    id ∉ (step_timeout s).request_table ∧
    id ∉ (step_timeout s).request_callbacks ∧
    lookupF (step_timeout s).futures id =
      some { state := FutureState.failed ErrVal.timedOut, deliveries := 1,
             expired := true } ∧
    (∀ error result,
      on_response (step_timeout s) id error result = step_timeout s) := by
  obtain ⟨h1, h2⟩ := step_timeout_expired hnd hm hf hx
  have hcb2 : id ∉ (step_timeout s).request_callbacks := by
    rw [step_timeout_callbacks]
    exact hcb
  refine ⟨h1, hcb2, ?_, fun error result => on_response_not_found h1 hcb2⟩
  rw [h2]
  simp [Future.setError, hp, hd, hx]

/-- C1 witness: the sweep on a concrete session with one expired call fails
it exactly once and a late response (error `some 3`, result `4`) is
discarded. -/
theorem c1_witness :
    (sessionOneExpired.request_table.Nodup ∧
     (0 : Nat) ∈ sessionOneExpired.request_table ∧
     0 ∉ sessionOneExpired.request_callbacks ∧
     lookupF sessionOneExpired.futures 0 = some expiredFuture ∧
     expiredFuture.expired = true ∧
     expiredFuture.state = FutureState.pending ∧
     expiredFuture.deliveries = 0) ∧
    (0 ∉ (step_timeout sessionOneExpired).request_table ∧
     0 ∉ (step_timeout sessionOneExpired).request_callbacks ∧
     lookupF (step_timeout sessionOneExpired).futures 0 =
       some { state := FutureState.failed ErrVal.timedOut, deliveries := 1,
              expired := true } ∧
     on_response (step_timeout sessionOneExpired) 0 (some 3) 4 =
       step_timeout sessionOneExpired) := by
  have h := c1_timeout_once_late_response_discarded sessionOneExpired 0
    expiredFuture (by decide) (by decide) (by decide) (by decide) (by decide)
    (by decide) (by decide)
  exact ⟨⟨by decide, by decide, by decide, by decide, by decide, by decide,
          by decide⟩,
         ⟨h.1, h.2.1, h.2.2.1, h.2.2.2 (some 3) 4⟩⟩

/-- C2: for every inbound response whose msgid is in the future-keyed
registry, `on_response` removes that entry and fails the Deferred Result
with the error when one is present, otherwise resolves it with the result;
afterwards the registry no longer contains that msgid and exactly one
delivery was made to the future. -/
theorem c2_response_delivers_and_removes (s : Session) (id : Nat)
    (f : Future) (error : Option Nat) (result : Nat)
    (hnd : s.request_table.Nodup) (hm : id ∈ s.request_table)
    (hf : lookupF s.futures id = some f) :
    id ∉ (on_response s id error result).request_table ∧
    lookupF (on_response s id error result).futures id =
      some (match error with
            | some e => f.setError (ErrVal.remote e)
            | none => f.setResult result) ∧
    (match error with
     | some e => f.setError (ErrVal.remote e)
     | none => f.setResult result).deliveries = f.deliveries + 1 ∧
    (on_response s id error result).request_callbacks =
      s.request_callbacks ∧
    (on_response s id error result).cbLog = s.cbLog := by
  have hcond : ¬ (id ∉ s.request_table ∧ id ∉ s.request_callbacks) :=
    fun h => h.1 hm
  cases error with
  | some e =>
      rw [on_response, if_neg hcond, if_pos hm]
      exact ⟨hnd.not_mem_erase, lookupF_setErr_self _ hf, rfl, rfl, rfl⟩
  | none =>
      rw [on_response, if_neg hcond, if_pos hm]
      exact ⟨hnd.not_mem_erase, lookupF_setRes_self _ hf, rfl, rfl, rfl⟩

/-- C2 witness: a response with error `some 3` for the one pending call of a
concrete session removes the entry and fails the future once. -/
theorem c2_witness :
    (sessionOnePending.request_table.Nodup ∧
     (0 : Nat) ∈ sessionOnePending.request_table ∧
     lookupF sessionOnePending.futures 0 = some Future.fresh) ∧
    (0 ∉ (on_response sessionOnePending 0 (some 3) 9).request_table ∧
     lookupF (on_response sessionOnePending 0 (some 3) 9).futures 0 =
       some (Future.fresh.setError (ErrVal.remote 3)) ∧
     (Future.fresh.setError (ErrVal.remote 3)).deliveries =
       Future.fresh.deliveries + 1 ∧
     (on_response sessionOnePending 0 (some 3) 9).request_callbacks =
       sessionOnePending.request_callbacks ∧
     (on_response sessionOnePending 0 (some 3) 9).cbLog =
       sessionOnePending.cbLog) := by
  have h := c2_response_delivers_and_removes sessionOnePending 0 Future.fresh
    (some 3) 9 (by decide) (by decide) (by decide)
  exact ⟨⟨by decide, by decide, by decide⟩, h⟩

/-- C3 counterexample: with one callback-keyed registration and a connection
failure, the callback-keyed registry does not remain untouched — the
`close()` performed by `on_connect_failed` clears it. -/
theorem c3_counterexample :
    ¬ ((on_connect_failed sessionOneCallback 5).request_callbacks =
        sessionOneCallback.request_callbacks) := by decide

/-- C3 (amended): `on_connect_failed` fails every Deferred Result currently
in the future-keyed registry with the reason (all of them) and empties the
future-keyed registry; callback-keyed registrations are never notified (no
callback invocation is logged), but they do not remain untouched: the
embedded `close()` clears the callback-keyed registry as well. -/
theorem c3_connect_failure_broadcast (s : Session) (reason : Nat) :
    (on_connect_failed s reason).request_table = [] ∧
    (on_connect_failed s reason).request_callbacks = [] ∧
    (on_connect_failed s reason).cbLog = s.cbLog ∧
    (on_connect_failed s reason).transport = false ∧
    (∀ id f, s.request_table.Nodup → id ∈ s.request_table →
      lookupF s.futures id = some f →
      lookupF (on_connect_failed s reason).futures id =
        some (f.setError (ErrVal.connFail reason))) := by
  refine ⟨rfl, rfl, ?_, rfl, ?_⟩
  · show (failAll (ErrVal.connFail reason) false s.request_table s).cbLog =
      s.cbLog
    exact (failAll_frame _ _ _ _).2.1
  · intro id f hnd hm hf
    show lookupF
      (failAll (ErrVal.connFail reason) false s.request_table s).futures id =
      some (f.setError (ErrVal.connFail reason))
    exact failAll_lookup_mem _ _ hnd hm hf

/-- C3 witness: the amended broadcast behaviour at a concrete session with
one pending future-keyed call. -/
theorem c3_witness :
    (on_connect_failed sessionOnePending 9).request_table = [] ∧
    (on_connect_failed sessionOnePending 9).request_callbacks = [] ∧
    sessionOnePending.request_table.Nodup ∧
    (0 : Nat) ∈ sessionOnePending.request_table ∧
    lookupF sessionOnePending.futures 0 = some Future.fresh ∧
    lookupF (on_connect_failed sessionOnePending 9).futures 0 =
      some (Future.fresh.setError (ErrVal.connFail 9)) := by
  have h := c3_connect_failure_broadcast sessionOnePending 9
  exact ⟨h.1, h.2.1, by decide, by decide, by decide,
         h.2.2.2.2 0 Future.fresh (by decide) (by decide) (by decide)⟩

/-- C4: when `step_timeout` runs, if no future-keyed entry reports its
deadline elapsed it returns with no side effects; otherwise every expired id
is removed from the future-keyed registry and its Deferred Result is failed
with the timeout error; callback-keyed entries are never examined, removed,
or timed out by the sweep, in every state. -/
theorem c4_step_timeout_sweep (s : Session) :
    (expiredIds s = [] → step_timeout s = s) ∧
    (step_timeout s).request_callbacks = s.request_callbacks ∧
    (step_timeout s).cbLog = s.cbLog ∧
    (∀ id f, s.request_table.Nodup → id ∈ s.request_table →
      lookupF s.futures id = some f → f.expired = true →
      id ∉ (step_timeout s).request_table ∧
      lookupF (step_timeout s).futures id =
        some (f.setError ErrVal.timedOut)) := by
  exact ⟨step_timeout_noop, step_timeout_callbacks s, step_timeout_cbLog s,
         fun id f hnd hm hf hx => step_timeout_expired hnd hm hf hx⟩

/-- C4 witness: the no-expiry branch on a fresh session and the expiry
branch on a concrete session with one expired call. -/
theorem c4_witness :
    step_timeout freshSession = freshSession ∧
    sessionOneExpired.request_table.Nodup ∧
    (0 : Nat) ∈ sessionOneExpired.request_table ∧
    lookupF sessionOneExpired.futures 0 = some expiredFuture ∧
    expiredFuture.expired = true ∧
    (0 ∉ (step_timeout sessionOneExpired).request_table ∧
     lookupF (step_timeout sessionOneExpired).futures 0 =
       some (expiredFuture.setError ErrVal.timedOut)) := by
  refine ⟨(c4_step_timeout_sweep freshSession).1 (by decide), by decide,
          by decide, by decide, by decide,
          (c4_step_timeout_sweep sessionOneExpired).2.2.2 0 expiredFuture
            (by decide) (by decide) (by decide) (by decide)⟩

/-- C5: the id generator yields 0, 1, 2, ... up to and including 2^30 and
then restarts at 0; after 2^30 + 1 invocations the next id produced is 0. -/
theorem c5_generator_wraparound (n : Nat) (h : n ≤ 2 ^ 30) :
    genState n = n ∧ genState (2 ^ 30 + 1) = 0 := by
  constructor
  · rw [genState_mod]
    refine Nat.mod_eq_of_lt ?_
    have h2 : (2 : Nat) ^ 30 = 1073741824 := by norm_num
    omega
  · rw [genState_mod]
    norm_num

/-- C5 witness: the third id drawn is 3, and the wraparound law holds. -/
theorem c5_witness :
    3 ≤ 2 ^ 30 ∧ (genState 3 = 3 ∧ genState (2 ^ 30 + 1) = 0) :=
  ⟨by norm_num, c5_generator_wraparound 3 (by norm_num)⟩

/-- C6: for every sequence of N calls issued on a fresh Session before any
reply arrives, with N ≤ 2^30, the message ids assigned by `send_request`
are pairwise distinct. -/
theorem c6_outstanding_ids_distinct (N i j : Nat) (hN : N ≤ 2 ^ 30)
    (hi : i < N) (hj : j < N) (hij : i ≠ j) :
    assignedId i ≠ assignedId j := by
  rw [assignedId_eq, assignedId_eq, genState_mod, genState_mod]
  have h2 : (2 : Nat) ^ 30 = 1073741824 := by norm_num
  have hi2 : i % 1073741825 = i := Nat.mod_eq_of_lt (by omega)
  have hj2 : j % 1073741825 = j := Nat.mod_eq_of_lt (by omega)
  omega

/-- C6 witness: two calls on a fresh session get distinct ids. -/
theorem c6_witness :
    (2 ≤ 2 ^ 30 ∧ 0 < 2 ∧ 1 < 2 ∧ (0 : Nat) ≠ 1) ∧
    assignedId 0 ≠ assignedId 1 :=
  ⟨⟨by norm_num, by norm_num, by norm_num, by norm_num⟩,
   c6_outstanding_ids_distinct 2 0 1 (by norm_num) (by norm_num) (by norm_num)
     (by norm_num)⟩

/-- C7: an inbound response whose msgid is in neither registry is discarded
silently: the session (both registries, the generator counter, the heap of
Deferred Results, the callback log) is left unchanged. -/
theorem c7_unknown_id_discarded (s : Session) (id : Nat)
    (error : Option Nat) (result : Nat) (h1 : id ∉ s.request_table)
    (h2 : id ∉ s.request_callbacks) :
    on_response s id error result = s :=
  on_response_not_found h1 h2

/-- C7 witness: a response for id 5 on a fresh session is discarded. -/
theorem c7_witness :
    (5 ∉ freshSession.request_table ∧ 5 ∉ freshSession.request_callbacks) ∧
    on_response freshSession 5 (some 1) 2 = freshSession :=
  ⟨⟨by decide, by decide⟩,
   c7_unknown_id_discarded freshSession 5 (some 1) 2 (by decide) (by decide)⟩

/-- C8: `on_timeout(msgid)` evaluates the unbound name `timeout` instead of
its `msgid` parameter, so for every session and msgid it raises `NameError`
before removing any entry or delivering any timeout error. -/
theorem c8_on_timeout_name_error (s : Session) (msgid : Nat) :
    on_timeout s msgid = Except.error (PyErr.nameError "timeout") := rfl

/-- C9: `close()` tears down the transport and clears both registries; the
Deferred Results still on the heap are abandoned — after close, neither
`on_response` nor `step_timeout` changes the session, so none of them is
ever resolved or failed. -/
theorem c9_close_abandons (s : Session) :
    (close s).request_table = [] ∧ (close s).request_callbacks = [] ∧
    (close s).transport = false ∧ (close s).futures = s.futures ∧
    (∀ id error result, on_response (close s) id error result = close s) ∧
    step_timeout (close s) = close s := by
  refine ⟨rfl, rfl, rfl, rfl, ?_, ?_⟩
  · intro id error result
    exact on_response_not_found (by simp [close]) (by simp [close])
  · refine step_timeout_noop ?_
    simp [expiredIds, close]

/-- C10: `close()` is idempotent: after one close the transport reference is
absent and both registries are empty, and a second close performs no
transport operation and leaves the session in exactly the same state. -/
theorem c10_close_idempotent (s : Session) :
    close (close s) = close s ∧ (close s).transport = false ∧
    (close (close s)).transportCloses = (close s).transportCloses ∧
    (close s).request_table = [] ∧ (close s).request_callbacks = [] := by
  refine ⟨?_, rfl, ?_, rfl, rfl⟩
  · simp [close]
  · simp [close]

end MsgpackRpc
